import Mathlib

/-!
Shallow embedding of the go-user-api service: data model (`internal/models/user.go`),
JWT token issue/validation (`internal/utils`, source part_002), and the HTTP handlers
(auth handlers in part_000, user handlers in part_001). Machine integers are modelled
as `Int` with explicit range checks where the code performs them; fallible calls into
the store, the hasher and the signer are modelled as `Except`/`Bool` parameters, since
those outcomes are external nondeterminism for the handler code.
-/

namespace GoUserAPI

/-- JSON values, the shape of every response body the handlers emit. -/
inductive Json where
  | str : String → Json
  | num : Int → Json
  | obj : List (String × Json) → Json
  | arr : List Json → Json

/-- Top-level keys of a JSON object (empty for non-objects). -/
def Json.topKeys : Json → List String
  | .obj fs => fs.map Prod.fst
  | _ => []

/-- Look up a top-level field of a JSON object. -/
def Json.field (j : Json) (k : String) : Option Json :=
  match j with
  | .obj fs => (fs.find? (fun p => p.1 == k)).map Prod.snd
  | _ => none

/-- The persisted `User` entity of `internal/models/user.go` (struct `User`).
Timestamps are modelled as `Int` (unix seconds). -/
structure User where
  id : Int
  email : String
  username : String
  passwordHash : String
  firstName : String
  lastName : String
  createdAt : Int
  updatedAt : Int
deriving Repr, BEq, DecidableEq

/-- JSON serialization of `User` following its struct tags: `id`, `email`,
`username`, `first_name,omitempty`, `last_name,omitempty`, `created_at`,
`updated_at`; the `PasswordHash` field carries tag `-` and is never emitted. -/
def userToJson (u : User) : Json :=
  Json.obj
    ([("id", Json.num u.id), ("email", Json.str u.email), ("username", Json.str u.username)]
      ++ (if u.firstName = "" then [] else [("first_name", Json.str u.firstName)])
      ++ (if u.lastName = "" then [] else [("last_name", Json.str u.lastName)])
      ++ [("created_at", Json.num u.createdAt), ("updated_at", Json.num u.updatedAt)])

/-- `RegisterRequest` of `internal/models/user.go`. -/
structure RegisterRequest where
  email : String
  username : String
  password : String
  firstName : String
  lastName : String
deriving Repr, DecidableEq

/-- `LoginRequest` of `internal/models/user.go`. -/
structure LoginRequest where
  email : String
  password : String
deriving Repr, DecidableEq

/-- `UpdateUserRequest` of `internal/models/user.go`: carries `email` and
`username` JSON fields as well, but the update handler never reads them. -/
structure UpdateUserRequest where
  email : String
  username : String
  firstName : String
  lastName : String
deriving Repr, DecidableEq

/-- Character class `[a-zA-Z0-9._%+-]` of the email pattern (local part). -/
def isLocalChar (c : Char) : Bool :=
  c.isAlpha || c.isDigit || c = '.' || c = '_' || c = '%' || c = '+' || c = '-'

/-- Character class `[a-zA-Z0-9.-]` of the email pattern (domain part). -/
def isDomainChar (c : Char) : Bool :=
  c.isAlpha || c.isDigit || c = '.' || c = '-'

/-- Full-string matching of the anchored pattern
`[a-zA-Z0-9._%+-]+ @ [a-zA-Z0-9.-]+ . [a-zA-Z]\x7b2,\x7d` used by
`isValidEmail`: there exist positions i of the `@` and j of the final dot
splitting the string into a non-empty local part, a non-empty domain part and
a trailing run of at least two letters. -/
def matchesEmailPattern (cs : List Char) : Bool :=
  (List.range cs.length).any fun i =>
    (List.range cs.length).any fun j =>
      decide (0 < i) && decide (i + 1 < j) && decide (j + 3 ≤ cs.length) &&
      (cs.getD i ' ' == '@') && (cs.getD j ' ' == '.') &&
      (cs.take i).all isLocalChar &&
      ((cs.drop (i + 1)).take (j - i - 1)).all isDomainChar &&
      (cs.drop (j + 1)).all Char.isAlpha

/-- `isValidEmail` of `internal/models/user.go`: the compiled regex
`^[a-zA-Z0-9._%+-]+@[a-zA-Z0-9.-]+\.[a-zA-Z]\x7b2,\x7d$` matched against the
whole string. -/
def isValidEmail (email : String) : Bool :=
  matchesEmailPattern email.data

/-- `(*RegisterRequest).Validate` of `internal/models/user.go`: returns the
message of the first violated rule, `none` on success. Go `len` on a string
counts bytes, hence `String.utf8ByteSize`. -/
def Validate (r : RegisterRequest) : Option String :=
  if r.email = "" then some "email is required"
  else if ¬ isValidEmail r.email then some "invalid email format"
  else if r.username = "" then some "username is required"
  else if r.username.utf8ByteSize < 3 then some "username must be at least 3 characters"
  else if r.password = "" then some "password is required"
  else if r.password.utf8ByteSize < 6 then some "password must be at least 6 characters"
  else none

/-- Numeric value of a run of decimal digits. -/
def digitsToNat (ds : List Char) : Nat :=
  ds.foldl (fun n c => n * 10 + (c.toNat - 48)) 0

/-- `strconv.Atoi` on a 64-bit platform: optional sign, then a non-empty run
of decimal digits; any other shape, or a value outside the 64-bit signed
range, yields an error (Go reports `ErrSyntax`/`ErrRange`; the handlers only
test `err != nil`). -/
def atoi (s : String) : Except Unit Int :=
  let p : Int × List Char :=
    match s.data with
    | '+' :: rest => (1, rest)
    | '-' :: rest => (-1, rest)
    | cs => (1, cs)
  if p.2 = [] then Except.error ()
  else if p.2.all Char.isDigit then
    let v : Int := p.1 * (digitsToNat p.2 : Int)
    if v < -(2 : Int) ^ 63 ∨ (2 : Int) ^ 63 - 1 < v then Except.error () else Except.ok v
  else Except.error ()

/-! ## Token issuer / verifier (source part_002, `internal/utils`) -/

/-- The `Claims` struct of part_002: a user id plus the registered
`IssuedAt` and `ExpiresAt` claims (unix seconds). -/
structure Claims where
  userID : Int
  issuedAt : Int
  expiresAt : Int
deriving Repr, DecidableEq

/-- Signing algorithms a presented token may assert. `ValidateToken` accepts
only the HMAC family. -/
inductive SigAlg where
  | HS256
  | RS256
  | none_
deriving Repr, DecidableEq

/-- Abstraction of the HMAC-SHA256 signature over the encoded claims: a value
determined by the secret and the claims, which `ValidateToken` recomputes and
compares. -/
def hmacSig (secret : String) (c : Claims) : String :=
  secret ++ "." ++ toString c.userID ++ "." ++ toString c.issuedAt ++ "." ++ toString c.expiresAt

/-- A signed token: claims, asserted algorithm, signature. The base64 wire
encoding handled by the jwt library is not modelled; a token value stands for
its encoded string. -/
structure Token where
  claims : Claims
  alg : SigAlg
  sig : String
deriving Repr, DecidableEq

/-- Seconds in 24 hours, the expiry horizon `time.Now().Add(24 * time.Hour)`. -/
def daySeconds : Int := 86400

/-- `GenerateToken` of part_002: fails when the `JWT_SECRET` environment value
is empty, otherwise issues an HS256 token with `IssuedAt = now` and
`ExpiresAt = now + 24h` over the given user id. -/
def GenerateToken (secret : String) (now : Int) (userID : Int) : Except String Token :=
  if secret = "" then Except.error "JWT_SECRET not set in environment"
  else
    let c : Claims := { userID := userID, issuedAt := now, expiresAt := now + daySeconds }
    Except.ok { claims := c, alg := SigAlg.HS256, sig := hmacSig secret c }

/-- `ValidateToken` of part_002: fails when the secret is empty; rejects a
token asserting a non-HMAC algorithm, a wrong signature, or one whose
`ExpiresAt` is not strictly in the future (jwt v5 checks `now.Before(exp)`).
On success returns the embedded user id. -/
def ValidateToken (secret : String) (now : Int) (t : Token) : Except String Int :=
  if secret = "" then Except.error "JWT_SECRET not set in environment"
  else if t.alg ≠ SigAlg.HS256 then Except.error "invalid signing method"
  else if t.sig ≠ hmacSig secret t.claims then Except.error "signature is invalid"
  else if ¬ now < t.claims.expiresAt then Except.error "token is expired"
  else Except.ok t.claims.userID

/-! ## Repository-level store operations

The store is the `users` table, a list of rows. SQL behaviour that the
queries rely on (unique constraints, `WHERE id = $1`, `COALESCE(NULLIF(x,
\x27\x27), old)`, `ORDER BY created_at DESC`, `RETURNING`) is modelled here;
external failures (connection loss, scan errors) enter as parameters of the
handlers below. -/

/-- The `users` table. -/
abbrev Store := List User

/-- `SELECT ... FROM users WHERE id = $1` followed by a scan: the first row
with the given id, if any. -/
def findByID (store : Store) (id : Int) : Option User :=
  store.find? (fun u => u.id == id)

/-- `SELECT ... FROM users WHERE email = $1`: the first row with the given
email, if any. -/
def findByEmail (store : Store) (email : String) : Option User :=
  store.find? (fun u => u.email == email)

/-- Effect of `SET first_name = COALESCE(NULLIF($1, \x27\x27), first_name),
last_name = COALESCE(NULLIF($2, \x27\x27), last_name), updated_at = NOW()` on
one row. -/
def applyUpdate (fn ln : String) (now : Int) (u : User) : User :=
  { u with
    firstName := if fn = "" then u.firstName else fn
    lastName := if ln = "" then u.lastName else ln
    updatedAt := now }

/-- The `UPDATE ... WHERE id = $3 RETURNING ...` statement of the update
handler: `none` when no row matches (`sql.ErrNoRows` at the `Scan`),
otherwise the updated row and the new table. -/
def updateNamesByID (store : Store) (id : Int) (fn ln : String) (now : Int) :
    Option (User × Store) :=
  match findByID store id with
  | none => none
  | some u =>
    let u2 := applyUpdate fn ln now u
    some (u2, store.map (fun v => if v.id == id then applyUpdate fn ln now v else v))

/-- `DELETE FROM users WHERE id = $1`: the remaining table and the number of
rows affected. -/
def deleteByID (store : Store) (id : Int) : Store × Nat :=
  (store.filter (fun u => ¬ u.id == id), (store.filter (fun u => u.id == id)).length)

/-- `INSERT INTO users ... RETURNING ...`: violates a unique constraint when
some existing row shares the email or the username (error `conflict`);
otherwise appends the new row, with `created_at`/`updated_at` set by the
store at insert time. -/
def insertUser (store : Store) (nextId : Int) (now : Int) (r : RegisterRequest)
    (hash : String) : Except Unit (User × Store) :=
  if store.any (fun u => u.email == r.email || u.username == r.username) then
    Except.error ()
  else
    let u : User :=
      { id := nextId, email := r.email, username := r.username, passwordHash := hash,
        firstName := r.firstName, lastName := r.lastName, createdAt := now, updatedAt := now }
    Except.ok (u, store ++ [u])

/-- `ORDER BY created_at DESC`, modelled as insertion sort into non-increasing
`createdAt` order. -/
def insertDesc (u : User) : List User → List User
  | [] => [u]
  | v :: vs => if v.createdAt < u.createdAt then u :: v :: vs else v :: insertDesc u vs

/-- The row order the list query delivers: the table sorted by `created_at`
descending. -/
def sortByCreatedAtDesc (store : Store) : List User :=
  store.foldr insertDesc []

/-! ## HTTP handlers (part_000: auth; part_001: users)

Each handler is embedded as a pure function of: the decoded request pieces,
the outcomes of external calls that can fail for reasons outside the code
(`dbFail` for a storage-level failure of the SQL round-trip, `hashOutcome`
for the bcrypt hasher, `scanFail` for per-row decode failures), and the
current table. Handlers that mutate the table also return it. -/

/-- An HTTP response: status code plus JSON body. -/
structure HResp where
  status : Nat
  body : Json

/-- `ErrorResponse` serialization: an object with the single key `error`. -/
def errResp (status : Nat) (msg : String) : HResp :=
  { status := status, body := Json.obj [("error", Json.str msg)] }

/-- Wire form of a token; its content is irrelevant to the claims, only that
the login/register bodies carry it under the key `token`. -/
def serializeToken (t : Token) : String :=
  t.sig

/-- `LoginResponse` serialization: `token` and `user` keys. -/
def loginResponseToJson (t : Token) (u : User) : Json :=
  Json.obj [("token", Json.str (serializeToken t)), ("user", userToJson u)]

/-- How an `INSERT` can fail: a unique-constraint conflict, or any other
storage-level error. The Go handler never inspects which. -/
inductive InsertErr where
  | conflict
  | internal
deriving Repr, DecidableEq

/-- `Register` of part_000: decode body, validate, hash the password, insert,
issue a token. Any insert error at all is answered 409; hasher and signer
failures are answered 500. -/
def Register (secret : String) (now : Int) (nextId : Int)
    (body : Except Unit RegisterRequest) (hashOutcome : Except Unit String)
    (dbFail : Bool) (store : Store) : HResp × Store :=
  match body with
  | Except.error _ => (errResp 400 "Invalid request body", store)
  | Except.ok req =>
    match Validate req with
    | some msg => (errResp 400 msg, store)
    | none =>
      match hashOutcome with
      | Except.error _ => (errResp 500 "Failed to process password", store)
      | Except.ok hash =>
        let inserted : Except InsertErr (User × Store) :=
          if dbFail then Except.error InsertErr.internal
          else
            match insertUser store nextId now req hash with
            | Except.error _ => Except.error InsertErr.conflict
            | Except.ok r => Except.ok r
        match inserted with
        | Except.error _ => (errResp 409 "Email or username already exists", store)
        | Except.ok (user, store2) =>
          match GenerateToken secret now user.id with
          | Except.error _ => (errResp 500 "Failed to generate token", store2)
          | Except.ok tok =>
            ({ status := 201, body := loginResponseToJson tok user }, store2)

/-- `Login` of part_000: decode body, require non-empty email/password, find
the row by email (no row: 401; other storage failure: 500 "Database error"),
check the password (mismatch: 401), issue a token. -/
def Login (secret : String) (now : Int) (body : Except Unit LoginRequest)
    (dbFail : Bool) (checkPassword : String → String → Bool) (store : Store) : HResp :=
  match body with
  | Except.error _ => errResp 400 "Invalid request body"
  | Except.ok req =>
    if req.email = "" ∨ req.password = "" then
      errResp 400 "Email and password are required"
    else if dbFail then errResp 500 "Database error"
    else
      match findByEmail store req.email with
      | none => errResp 401 "Invalid email or password"
      | some user =>
        if ¬ checkPassword user.passwordHash req.password then
          errResp 401 "Invalid email or password"
        else
          match GenerateToken secret now user.id with
          | Except.error _ => errResp 500 "Failed to generate token"
          | Except.ok tok => { status := 200, body := loginResponseToJson tok user }

/-- The scan loop of `GetUsers`: a row whose `Scan` fails is skipped
(`continue`), the rest are appended in order. -/
def scanLoop (scanFail : User → Bool) : List User → List User
  | [] => []
  | u :: rest => if scanFail u then scanLoop scanFail rest else u :: scanLoop scanFail rest

/-- `GetUsers` of part_001: query all rows ordered by `created_at`
descending (query failure: 500), scan each row skipping failures, answer 200
with the JSON array. -/
def GetUsers (dbFail : Bool) (scanFail : User → Bool) (store : Store) : HResp :=
  if dbFail then errResp 500 "Failed to fetch users"
  else
    { status := 200,
      body := Json.arr ((scanLoop scanFail (sortByCreatedAtDesc store)).map userToJson) }

/-- `GetUser` of part_001: parse the path id (failure: 400), fetch the row
(`sql.ErrNoRows`: 404; other storage failure: 500 "Database error"), answer
200 with the row. -/
def GetUser (idStr : String) (dbFail : Bool) (store : Store) : HResp :=
  match atoi idStr with
  | Except.error _ => errResp 400 "Invalid user ID"
  | Except.ok id =>
    if dbFail then errResp 500 "Database error"
    else
      match findByID store id with
      | none => errResp 404 "User not found"
      | some u => { status := 200, body := userToJson u }

/-- `GetCurrentUser` of part_001: read the authenticated id from the request
context (absent: 401), fetch the row; ANY error of the query — including
`sql.ErrNoRows` when the row no longer exists — is answered 500 "Failed to
fetch user", since the handler only tests `err != nil`. -/
def GetCurrentUser (ctxUserID : Option Int) (dbFail : Bool) (store : Store) : HResp :=
  match ctxUserID with
  | none => errResp 401 "Unauthorized"
  | some uid =>
    if dbFail then errResp 500 "Failed to fetch user"
    else
      match findByID store uid with
      | none => errResp 500 "Failed to fetch user"
      | some u => { status := 200, body := userToJson u }

/-- `UpdateUser` of part_001: parse the path id (failure: 400), require the
context id to be present and equal to it (else 403) BEFORE decoding the body
(malformed body after that gate: 400), run the coalescing update; ANY error
of the update query — including `sql.ErrNoRows` when the row is gone — is
answered 500 "Failed to update user". -/
def UpdateUser (idStr : String) (ctxUserID : Option Int)
    (body : Except Unit UpdateUserRequest) (dbFail : Bool) (now : Int)
    (store : Store) : HResp × Store :=
  match atoi idStr with
  | Except.error _ => (errResp 400 "Invalid user ID", store)
  | Except.ok id =>
    match ctxUserID with
    | none => (errResp 403 "You can only update your own profile", store)
    | some auth =>
      if auth ≠ id then (errResp 403 "You can only update your own profile", store)
      else
        match body with
        | Except.error _ => (errResp 400 "Invalid request body", store)
        | Except.ok req =>
          if dbFail then (errResp 500 "Failed to update user", store)
          else
            match updateNamesByID store id req.firstName req.lastName now with
            | none => (errResp 500 "Failed to update user", store)
            | some (u, store2) => ({ status := 200, body := userToJson u }, store2)

/-- `DeleteUser` of part_001: parse the path id (failure: 400), require the
context id to be present and equal to it (else 403), run the delete (storage
failure: 500; zero rows affected: 404), answer 200 with a message object. -/
def DeleteUser (idStr : String) (ctxUserID : Option Int) (dbFail : Bool)
    (store : Store) : HResp × Store :=
  match atoi idStr with
  | Except.error _ => (errResp 400 "Invalid user ID", store)
  | Except.ok id =>
    match ctxUserID with
    | none => (errResp 403 "You can only delete your own account", store)
    | some auth =>
      if auth ≠ id then (errResp 403 "You can only delete your own account", store)
      else if dbFail then (errResp 500 "Failed to delete user", store)
      else
        let r := deleteByID store id
        if r.2 = 0 then (errResp 404 "User not found", r.1)
        else ({ status := 200, body := Json.obj [("message", Json.str "User deleted successfully")] }, r.1)

/-! ## Auxiliary definitions used by the claim statements -/

mutual

/-- `true` when the key `k` occurs nowhere in the JSON value, at any depth. -/
def noKeyAnywhere (k : String) : Json → Bool
  | Json.str _ => true
  | Json.num _ => true
  | Json.obj fs => noKeyFields k fs
  | Json.arr es => noKeyList k es

/-- `noKeyAnywhere` over the fields of an object. -/
def noKeyFields (k : String) : List (String × Json) → Bool
  | [] => true
  | (k2, j) :: rest => (k2 != k) && noKeyAnywhere k j && noKeyFields k rest

/-- `noKeyAnywhere` over the elements of an array. -/
def noKeyList (k : String) : List Json → Bool
  | [] => true
  | j :: rest => noKeyAnywhere k j && noKeyList k rest

end

/-- The validation rules of the spec, as an ordered list of
(violation condition, message) pairs — the claimed evaluation order. This
definition follows the words of the spec, to be compared with `Validate`,
which is translated from the code. -/
def specRegisterRules (r : RegisterRequest) : List (Bool × String) :=
  [(decide (r.email = ""), "email is required"),
   (! isValidEmail r.email, "invalid email format"),
   (decide (r.username = ""), "username is required"),
   (decide (r.username.utf8ByteSize < 3), "username must be at least 3 characters"),
   (decide (r.password = ""), "password is required"),
   (decide (r.password.utf8ByteSize < 6), "password must be at least 6 characters")]

/-- The frame relation of C4: the after-row agrees with the before-row on id,
email, username, password hash and creation time. -/
def FrameEq (v u : User) : Prop :=
  u.id = v.id ∧ u.email = v.email ∧ u.username = v.username ∧
    u.passwordHash = v.passwordHash ∧ u.createdAt = v.createdAt

/-- Non-increasing `created_at`: the order `ORDER BY created_at DESC` promises. -/
def DescOrder (a b : User) : Prop :=
  b.createdAt ≤ a.createdAt

/-! ## Theorems -/

/-- `applyUpdate` never changes the id of a row. -/
theorem applyUpdate_id (fn ln : String) (now : Int) (u : User) :
    (applyUpdate fn ln now u).id = u.id := rfl

/-- Looking up `id` after mapping an id-preserving per-row update over the
table returns the image of the original row. -/
theorem findByID_map_ite (store : Store) (id : Int) (g : User → User)
    (hg : ∀ v, (g v).id = v.id) :
    findByID (store.map fun v => if v.id == id then g v else v) id =
      (findByID store id).map (fun u => if u.id == id then g u else u) := by
  have hpred : ∀ v : User, ((if v.id == id then g v else v).id == id) = (v.id == id) := by
    intro v
    by_cases hv : v.id = id
    · simp [hv, hg v]
    · simp [hv]
  induction store with
  | nil => rfl
  | cons v rest ih =>
    unfold findByID at ih ⊢
    rw [List.map_cons, List.find?_cons, List.find?_cons, hpred v]
    cases hv : (v.id == id) with
    | true =>
      have hv2 : v.id = id := by simpa using hv
      simp [hv2]
    | false => exact ih

/-- C3: on every successful update, an empty supplied `first_name`/`last_name`
leaves the stored value unchanged, a non-empty one overwrites it, and
`updated_at` is set to the present time unconditionally; the row stored in
the resulting table is exactly the returned row. -/
theorem c3_update_coalesce (store : Store) (id : Int) (fn ln : String) (now : Int)
    (u2 : User) (store2 : Store)
    (h : updateNamesByID store id fn ln now = some (u2, store2)) :
    u2.updatedAt = now ∧
    findByID store2 id = some u2 ∧
    ∃ u, findByID store id = some u ∧
      (fn = "" → u2.firstName = u.firstName) ∧ (fn ≠ "" → u2.firstName = fn) ∧
      (ln = "" → u2.lastName = u.lastName) ∧ (ln ≠ "" → u2.lastName = ln) := by
  unfold updateNamesByID at h
  cases hf : findByID store id with
  | none => rw [hf] at h; cases h
  | some u =>
    rw [hf] at h
    have hu2 : u2 = applyUpdate fn ln now u := by
      cases h; rfl
    have hs2 : store2 = store.map fun v => if v.id == id then applyUpdate fn ln now v else v := by
      cases h; rfl
    have hid : u.id = id := by
      have := List.find?_some hf
      simpa using this
    refine ⟨by simp [hu2, applyUpdate], ?_, u, rfl, ?_, ?_, ?_, ?_⟩
    · rw [hs2, findByID_map_ite store id _ (fun v => applyUpdate_id fn ln now v), hf]
      simp [hid, hu2]
    · intro he; simp [hu2, applyUpdate, he]
    · intro he; simp [hu2, applyUpdate, he]
    · intro he; simp [hu2, applyUpdate, he]
    · intro he; simp [hu2, applyUpdate, he]

/-- C3 witness: a concrete successful update with empty first name and
non-empty last name. -/
theorem c3_update_coalesce_witness :
    let u0 : User :=
      { id := 1, email := "a@b.com", username := "abc", passwordHash := "h",
        firstName := "Ann", lastName := "Lee", createdAt := 10, updatedAt := 10 }
    let u2 : User :=
      { id := 1, email := "a@b.com", username := "abc", passwordHash := "h",
        firstName := "Ann", lastName := "Poe", createdAt := 10, updatedAt := 99 }
    u2.updatedAt = 99 ∧
    findByID [u2] 1 = some u2 ∧
    ∃ u, findByID [u0] 1 = some u ∧
      ("" = "" → u2.firstName = u.firstName) ∧ ("" ≠ "" → u2.firstName = "") ∧
      ("Poe" = "" → u2.lastName = u.lastName) ∧ ("Poe" ≠ "" → u2.lastName = "Poe") :=
  c3_update_coalesce _ 1 "" "Poe" 99 _ _ rfl

/-- C5: a PUT or DELETE on a path id differing from the authenticated id is
answered 403 whatever the body outcome (well-formed or malformed) and
whatever the storage outcome, and the table is returned unchanged. -/
theorem c5_ownership_mismatch_403 (idStr : String) (id auth : Int)
    (body : Except Unit UpdateUserRequest) (dbFail : Bool) (now : Int) (store : Store)
    (hid : atoi idStr = Except.ok id) (hne : auth ≠ id) :
    UpdateUser idStr (some auth) body dbFail now store =
      (errResp 403 "You can only update your own profile", store) ∧
    DeleteUser idStr (some auth) dbFail store =
      (errResp 403 "You can only delete your own account", store) := by
  constructor
  · simp only [UpdateUser, hid]
    rw [if_pos hne]
  · simp only [DeleteUser, hid]
    rw [if_pos hne]

/-- C5 witness: a concrete mismatched update (with a malformed body) and
delete, both 403. -/
theorem c5_ownership_mismatch_403_witness :
    UpdateUser "2" (some 1) (Except.error ()) false 0 [] =
      (errResp 403 "You can only update your own profile", []) ∧
    DeleteUser "2" (some 1) false [] =
      (errResp 403 "You can only delete your own account", []) :=
  c5_ownership_mismatch_403 "2" 2 1 (Except.error ()) false 0 [] rfl (by decide)

/-- C6: with a non-empty secret, a token issued at `t0` for a user id
validates to that same id at any time strictly before `t0 + 24h`, and is
rejected at any time strictly after `t0 + 24h`. -/
theorem c6_token_roundtrip_and_expiry (secret : String) (t0 uid now : Int) (tok : Token)
    (hs : secret ≠ "") (hgen : GenerateToken secret t0 uid = Except.ok tok) :
    (now < t0 + daySeconds → ValidateToken secret now tok = Except.ok uid) ∧
    (t0 + daySeconds < now → ValidateToken secret now tok = Except.error "token is expired") := by
  unfold GenerateToken at hgen
  rw [if_neg hs] at hgen
  have htok : tok =
      { claims := { userID := uid, issuedAt := t0, expiresAt := t0 + daySeconds },
        alg := SigAlg.HS256,
        sig := hmacSig secret { userID := uid, issuedAt := t0, expiresAt := t0 + daySeconds } } := by
    cases hgen; rfl
  subst htok
  unfold ValidateToken
  rw [if_neg hs]
  constructor
  · intro hlt
    simp [hlt]
  · intro hgt
    have : ¬ now < t0 + daySeconds := by omega
    simp [this]

/-- C6 witness: secret "k", issue at time 0 for user 7, validate at time 3
(before expiry) and at time 100000 (after expiry). -/
theorem c6_token_roundtrip_and_expiry_witness :
    let tok : Token :=
      { claims := { userID := 7, issuedAt := 0, expiresAt := 86400 },
        alg := SigAlg.HS256, sig := "k.7.0.86400" }
    ((3 : Int) < 0 + daySeconds → ValidateToken "k" 3 tok = Except.ok 7) ∧
    ((0 : Int) + daySeconds < 3 → ValidateToken "k" 3 tok = Except.error "token is expired") :=
  c6_token_roundtrip_and_expiry "k" 0 7 3 _ (by decide) rfl

/-- C10: a path id that does not parse as a decimal integer is answered 400
with body error "Invalid user ID" by GET, PUT and DELETE alike, for every
context identity (so before any ownership check) and with the table returned
unchanged. -/
theorem c10_unparseable_id_400 (idStr : String) (ctx : Option Int)
    (body : Except Unit UpdateUserRequest) (dbFail : Bool) (now : Int) (store : Store)
    (h : atoi idStr = Except.error ()) :
    GetUser idStr dbFail store = errResp 400 "Invalid user ID" ∧
    UpdateUser idStr ctx body dbFail now store = (errResp 400 "Invalid user ID", store) ∧
    DeleteUser idStr ctx dbFail store = (errResp 400 "Invalid user ID", store) := by
  refine ⟨?_, ?_, ?_⟩
  · simp only [GetUser, h]
  · simp only [UpdateUser, h]
  · simp only [DeleteUser, h]

/-- C10 witness: the path id "abc" with a mismatching context identity still
yields 400 (not 403) from all three handlers. -/
theorem c10_unparseable_id_400_witness :
    GetUser "abc" false [] = errResp 400 "Invalid user ID" ∧
    UpdateUser "abc" (some 5) (Except.error ()) false 0 [] =
      (errResp 400 "Invalid user ID", []) ∧
    DeleteUser "abc" (some 5) false [] = (errResp 400 "Invalid user ID", []) :=
  c10_unparseable_id_400 "abc" (some 5) (Except.error ()) false 0 [] rfl

/-- C1 counterexample: with an empty table, the claim as stated fails — the
GET-me handler for a subject whose row is gone answers 500, not 404, and so
does PUT on the own id of a vanished row. -/
theorem c1_counterexample :
    (GetCurrentUser (some 1) false []).status = 500 ∧
    (UpdateUser "1" (some 1)
      (Except.ok { email := "", username := "", firstName := "", lastName := "" })
      false 0 []).1.status = 500 := by
  constructor <;> rfl

/-- C1 amended: when the target row is absent, GET by id answers 404, but
GET-me and PUT-on-own-id answer 500 (those two handlers treat `sql.ErrNoRows`
like any other error). -/
theorem c1_absent_row_statuses (idStr : String) (id uid : Int) (store : Store)
    (req : UpdateUserRequest) (now : Int)
    (hid : atoi idStr = Except.ok id)
    (habs : findByID store id = none) (habs2 : findByID store uid = none) :
    GetUser idStr false store = errResp 404 "User not found" ∧
    GetCurrentUser (some uid) false store = errResp 500 "Failed to fetch user" ∧
    (UpdateUser idStr (some id) (Except.ok req) false now store).1 =
      errResp 500 "Failed to update user" := by
  refine ⟨?_, ?_, ?_⟩
  · simp [GetUser, hid, habs]
  · simp [GetCurrentUser, habs2]
  · simp [UpdateUser, hid, updateNamesByID, habs]

/-- C1 witness: id 1 absent from the empty table. -/
theorem c1_absent_row_statuses_witness :
    GetUser "1" false [] = errResp 404 "User not found" ∧
    GetCurrentUser (some 2) false [] = errResp 500 "Failed to fetch user" ∧
    (UpdateUser "1" (some 1)
      (Except.ok { email := "", username := "", firstName := "", lastName := "" })
      false 0 []).1 = errResp 500 "Failed to update user" :=
  c1_absent_row_statuses "1" 1 2 []
    { email := "", username := "", firstName := "", lastName := "" } 0 rfl rfl rfl

/-- C2 counterexample: a register whose INSERT fails for a storage reason that
is not a uniqueness conflict (the table is empty, so no conflict is possible)
is answered 409, not the claimed 500. -/
theorem c2_counterexample :
    (Register "s" 0 1
      (Except.ok { email := "a@b.com", username := "abc", password := "secret1",
                   firstName := "", lastName := "" })
      (Except.ok "h") true []).1.status = 409 := by
  rfl

/-- C2 amended: hasher failure, signer failure and storage failures in Login,
GetUsers, GetUser, GetCurrentUser, UpdateUser and DeleteUser are all answered
500 with a fixed generic message; Register, however, answers 409 for EVERY
insert failure, whether or not it is a uniqueness conflict. -/
theorem c2_internal_failure_statuses :
    (∀ secret now nextId req store, Validate req = none →
      (Register secret now nextId (Except.ok req) (Except.error ()) false store).1 =
        errResp 500 "Failed to process password") ∧
    (∀ secret now nextId req hash store, Validate req = none →
      (Register secret now nextId (Except.ok req) (Except.ok hash) true store).1 =
        errResp 409 "Email or username already exists") ∧
    (∀ now nextId req hash store, Validate req = none →
      store.any (fun u => u.email == req.email || u.username == req.username) = false →
      (Register "" now nextId (Except.ok req) (Except.ok hash) false store).1 =
        errResp 500 "Failed to generate token") ∧
    (∀ secret now req cp store, req.email ≠ "" → req.password ≠ "" →
      Login secret now (Except.ok req) true cp store = errResp 500 "Database error") ∧
    (∀ scanFail store, GetUsers true scanFail store = errResp 500 "Failed to fetch users") ∧
    (∀ idStr id store, atoi idStr = Except.ok id →
      GetUser idStr true store = errResp 500 "Database error") ∧
    (∀ uid store, GetCurrentUser (some uid) true store = errResp 500 "Failed to fetch user") ∧
    (∀ idStr id req now store, atoi idStr = Except.ok id →
      (UpdateUser idStr (some id) (Except.ok req) true now store).1 =
        errResp 500 "Failed to update user") ∧
    (∀ idStr id store, atoi idStr = Except.ok id →
      (DeleteUser idStr (some id) true store).1 = errResp 500 "Failed to delete user") := by
  refine ⟨?_, ?_, ?_, ?_, ?_, ?_, ?_, ?_, ?_⟩
  · intro secret now nextId req store hv
    simp [Register, hv]
  · intro secret now nextId req hash store hv
    simp [Register, hv]
  · intro now nextId req hash store hv hnc
    simp [Register, hv, insertUser, hnc, GenerateToken]
  · intro secret now req cp store he hp
    simp [Login, he, hp]
  · intro scanFail store
    simp [GetUsers]
  · intro idStr id store hid
    simp [GetUser, hid]
  · intro uid store
    simp [GetCurrentUser]
  · intro idStr id req now store hid
    simp [UpdateUser, hid]
  · intro idStr id store hid
    simp [DeleteUser, hid]

/-- C2 amended witness: a concrete hasher failure answered 500 and a concrete
storage failure during Login answered 500. -/
theorem c2_internal_failure_statuses_witness :
    (Register "s" 0 1
      (Except.ok { email := "a@b.com", username := "abc", password := "secret1",
                   firstName := "", lastName := "" })
      (Except.error ()) false []).1 = errResp 500 "Failed to process password" ∧
    Login "s" 0 (Except.ok { email := "a@b.com", password := "pw" }) true
      (fun _ _ => true) [] = errResp 500 "Database error" :=
  ⟨c2_internal_failure_statuses.1 "s" 0 1
      { email := "a@b.com", username := "abc", password := "secret1",
        firstName := "", lastName := "" } [] rfl,
    c2_internal_failure_statuses.2.2.2.1 "s" 0 { email := "a@b.com", password := "pw" }
      (fun _ _ => true) [] (by decide) (by decide)⟩

/-- A pointwise map whose image is frame-equal yields a frame-equal table. -/
theorem forall2_frame_map (f : User → User) (hf : ∀ v, FrameEq v (f v)) :
    ∀ l : Store, List.Forall₂ FrameEq l (l.map f) := by
  intro l
  induction l with
  | nil => exact List.Forall₂.nil
  | cons v rest ih => exact List.Forall₂.cons (hf v) ih

/-- Every table is frame-equal to itself. -/
theorem forall2_frame_refl : ∀ l : Store, List.Forall₂ FrameEq l l := by
  intro l
  induction l with
  | nil => exact List.Forall₂.nil
  | cons v rest ih => exact List.Forall₂.cons ⟨rfl, rfl, rfl, rfl, rfl⟩ ih

/-- C4: an update call mutates only the name fields and `updated_at` — for
every request, including one whose decoded body carries email or username
values, every row of the resulting table (in particular the target row)
agrees with its predecessor on id, email, username, password hash and
creation time. -/
theorem c4_update_frame (idStr : String) (ctx : Option Int) (req : UpdateUserRequest)
    (dbFail : Bool) (now : Int) (store : Store) :
    List.Forall₂ FrameEq store (UpdateUser idStr ctx (Except.ok req) dbFail now store).2 := by
  have hup : ∀ v : User, FrameEq v (applyUpdate req.firstName req.lastName now v) := by
    intro v
    exact ⟨rfl, rfl, rfl, rfl, rfl⟩
  unfold UpdateUser
  cases hA : atoi idStr with
  | error e => exact forall2_frame_refl store
  | ok id =>
    cases ctx with
    | none => exact forall2_frame_refl store
    | some auth =>
      dsimp only
      by_cases hne : auth ≠ id
      · rw [if_pos hne]
        exact forall2_frame_refl store
      · rw [if_neg hne]
        cases dbFail with
        | true => exact forall2_frame_refl store
        | false =>
          cases hU : updateNamesByID store id req.firstName req.lastName now with
          | none => exact forall2_frame_refl store
          | some p =>
            cases p with
            | mk u2 store2 =>
              show List.Forall₂ FrameEq store store2
              have hstore : store2 = store.map
                  (fun v => if v.id == id then applyUpdate req.firstName req.lastName now v else v) := by
                unfold updateNamesByID at hU
                cases hf : findByID store id with
                | none => rw [hf] at hU; cases hU
                | some u =>
                  rw [hf] at hU
                  cases hU
                  rfl
              rw [hstore]
              refine forall2_frame_map _ ?_ store
              intro v
              by_cases hv : v.id == id
              · rw [if_pos hv]
                exact hup v
              · rw [if_neg hv]
                exact ⟨rfl, rfl, rfl, rfl, rfl⟩

/-- Equation lemma: `noKeyAnywhere` on a string value. -/
theorem noKeyAnywhere_str (k s : String) : noKeyAnywhere k (Json.str s) = true := by
  unfold noKeyAnywhere
  rfl

/-- Equation lemma: `noKeyAnywhere` on a numeric value. -/
theorem noKeyAnywhere_num (k : String) (n : Int) : noKeyAnywhere k (Json.num n) = true := by
  unfold noKeyAnywhere
  rfl

/-- Equation lemma: `noKeyAnywhere` on an object. -/
theorem noKeyAnywhere_obj (k : String) (fs : List (String × Json)) :
    noKeyAnywhere k (Json.obj fs) = noKeyFields k fs := by
  unfold noKeyAnywhere
  rfl

/-- Equation lemma: `noKeyAnywhere` on an array. -/
theorem noKeyAnywhere_arr (k : String) (es : List Json) :
    noKeyAnywhere k (Json.arr es) = noKeyList k es := by
  unfold noKeyAnywhere
  rfl

/-- Equation lemma: `noKeyFields` on the empty field list. -/
theorem noKeyFields_nil (k : String) : noKeyFields k [] = true := by
  unfold noKeyFields
  rfl

/-- Equation lemma: `noKeyFields` on a cons. -/
theorem noKeyFields_cons (k k2 : String) (j : Json) (rest : List (String × Json)) :
    noKeyFields k ((k2, j) :: rest) =
      ((k2 != k) && noKeyAnywhere k j && noKeyFields k rest) := by
  conv_lhs => unfold noKeyFields

/-- Equation lemma: `noKeyList` on the empty list. -/
theorem noKeyList_nil (k : String) : noKeyList k [] = true := by
  unfold noKeyList
  rfl

/-- Equation lemma: `noKeyList` on a cons. -/
theorem noKeyList_cons (k : String) (j : Json) (rest : List Json) :
    noKeyList k (j :: rest) = (noKeyAnywhere k j && noKeyList k rest) := by
  conv_lhs => unfold noKeyList

/-- `noKeyFields` distributes over appended field lists. -/
theorem noKeyFields_append (k : String) (l1 l2 : List (String × Json)) :
    noKeyFields k (l1 ++ l2) = (noKeyFields k l1 && noKeyFields k l2) := by
  induction l1 with
  | nil => simp [noKeyFields_nil]
  | cons p rest ih =>
    cases p with
    | mk k2 j => simp [noKeyFields_cons, ih, Bool.and_assoc]

/-- The serialization of any user contains no `password_hash` key at any
depth. -/
theorem userToJson_no_password_hash (v : User) :
    noKeyAnywhere "password_hash" (userToJson v) = true := by
  unfold userToJson
  rw [noKeyAnywhere_obj]
  by_cases h1 : v.firstName = "" <;> by_cases h2 : v.lastName = "" <;>
    simp [h1, h2, noKeyFields_append, noKeyFields_cons, noKeyFields_nil,
      noKeyAnywhere_str, noKeyAnywhere_num]

/-- C7: no response body built from a user — the bare user object of
get/me/update, the user array of list, or the token-plus-user object of
register/login — contains a `password_hash` key anywhere. -/
theorem c7_no_password_hash_serialized (u : User) (t : Token) (us : List User) :
    noKeyAnywhere "password_hash" (userToJson u) = true ∧
    noKeyAnywhere "password_hash" (loginResponseToJson t u) = true ∧
    noKeyAnywhere "password_hash" (Json.arr (us.map userToJson)) = true := by
  refine ⟨userToJson_no_password_hash u, ?_, ?_⟩
  · unfold loginResponseToJson
    rw [noKeyAnywhere_obj]
    simp [noKeyFields_cons, noKeyFields_nil, noKeyAnywhere_str,
      userToJson_no_password_hash u]
  · rw [noKeyAnywhere_arr]
    induction us with
    | nil => rfl
    | cons v rest ih =>
      simp [noKeyList_cons, userToJson_no_password_hash v, ih]

/-- C8: `Validate` checks exactly the six rules in the claimed order,
short-circuiting on the first violation and reporting its message; it
succeeds exactly when all six hold; and the six messages are pairwise
distinct. -/
theorem c8_validate_order_and_messages (r : RegisterRequest) :
    Validate r = ((specRegisterRules r).find? Prod.fst).map Prod.snd ∧
    (Validate r = none ↔
      (r.email ≠ "" ∧ isValidEmail r.email = true ∧ r.username ≠ "" ∧
        3 ≤ r.username.utf8ByteSize ∧ r.password ≠ "" ∧ 6 ≤ r.password.utf8ByteSize)) ∧
    ((specRegisterRules r).map Prod.snd).Nodup := by
  refine ⟨?_, ?_, ?_⟩
  · by_cases h1 : r.email = "" <;> by_cases h2 : isValidEmail r.email <;>
      by_cases h3 : r.username = "" <;> by_cases h4 : r.username.utf8ByteSize < 3 <;>
      by_cases h5 : r.password = "" <;> by_cases h6 : r.password.utf8ByteSize < 6 <;>
      simp [Validate, specRegisterRules, List.find?, h1, h2, h3, h4, h5, h6]
  · by_cases h1 : r.email = "" <;> by_cases h2 : isValidEmail r.email <;>
      by_cases h3 : r.username = "" <;> by_cases h4 : r.username.utf8ByteSize < 3 <;>
      by_cases h5 : r.password = "" <;> by_cases h6 : r.password.utf8ByteSize < 6 <;>
      simp [Validate, h1, h2, h3, h4, h5, h6, Nat.not_lt] <;> omega
  · simp [specRegisterRules]

/-- Inserting into a list permutes consing onto it. -/
theorem insertDesc_perm (u : User) (l : List User) :
    (insertDesc u l).Perm (u :: l) := by
  induction l with
  | nil => exact List.Perm.refl _
  | cons v vs ih =>
    unfold insertDesc
    by_cases h : v.createdAt < u.createdAt
    · rw [if_pos h]
    · rw [if_neg h]
      exact (List.Perm.cons v ih).trans (List.Perm.swap u v vs)

/-- The sorted listing is a permutation of the table. -/
theorem sortByCreatedAtDesc_perm (l : List User) :
    (sortByCreatedAtDesc l).Perm l := by
  induction l with
  | nil => exact List.Perm.refl _
  | cons v vs ih =>
    exact (insertDesc_perm v _).trans (List.Perm.cons v ih)

/-- Members of an insertion are the inserted element or old members. -/
theorem insertDesc_mem (u w : User) (l : List User) (h : w ∈ insertDesc u l) :
    w = u ∨ w ∈ l := by
  have := (insertDesc_perm u l).mem_iff.mp h
  simpa using this

/-- Insertion preserves non-increasing `created_at` order. -/
theorem insertDesc_sorted (u : User) (l : List User) (h : l.Pairwise DescOrder) :
    (insertDesc u l).Pairwise DescOrder := by
  induction l with
  | nil => simp [insertDesc]
  | cons v vs ih =>
    rw [List.pairwise_cons] at h
    obtain ⟨hv, hvs⟩ := h
    unfold insertDesc
    by_cases hlt : v.createdAt < u.createdAt
    · rw [if_pos hlt]
      refine List.Pairwise.cons ?_ (List.Pairwise.cons hv hvs)
      intro w hw
      cases List.mem_cons.mp hw with
      | inl he => subst he; exact le_of_lt hlt
      | inr hm => exact le_trans (hv w hm) (le_of_lt hlt)
    · rw [if_neg hlt]
      refine List.Pairwise.cons ?_ (ih hvs)
      intro w hw
      cases insertDesc_mem u w vs hw with
      | inl he => subst he; exact le_of_not_lt hlt
      | inr hm => exact hv w hm

/-- The listing the query delivers is in non-increasing `created_at` order. -/
theorem sortByCreatedAtDesc_sorted (l : List User) :
    (sortByCreatedAtDesc l).Pairwise DescOrder := by
  induction l with
  | nil => simp [sortByCreatedAtDesc]
  | cons v vs ih => exact insertDesc_sorted v _ ih

/-- The scan loop keeps, in order, exactly the rows whose scan succeeds. -/
theorem scanLoop_eq_filter (f : User → Bool) (l : List User) :
    scanLoop f l = l.filter (fun u => ! f u) := by
  induction l with
  | nil => rfl
  | cons u rest ih =>
    unfold scanLoop
    cases hf : f u with
    | true => simp [List.filter_cons, hf, ih]
    | false => simp [List.filter_cons, hf, ih]

/-- C9: the list endpoint answers 200 with the stored users in `created_at`
descending order (a permutation of the table, sorted non-increasingly), rows
failing to decode silently skipped while the rest are still returned; an
empty table yields 200 with an empty array, not an error. -/
theorem c9_list_users (store : Store) (scanFail : User → Bool) :
    GetUsers false scanFail store =
      { status := 200,
        body := Json.arr
          (((sortByCreatedAtDesc store).filter (fun u => ! scanFail u)).map userToJson) } ∧
    (sortByCreatedAtDesc store).Pairwise DescOrder ∧
    (sortByCreatedAtDesc store).Perm store ∧
    GetUsers false scanFail [] = { status := 200, body := Json.arr [] } := by
  refine ⟨?_, sortByCreatedAtDesc_sorted store, sortByCreatedAtDesc_perm store, rfl⟩
  simp [GetUsers, scanLoop_eq_filter]

end GoUserAPI
